import Mathlib

/-!
Verification of the core coordination logic of the vakio_atmosphere
Home Assistant integration (src/custom_components/vakio_atmosphere/vakio.py).

The Python module defines an `MqttClient` (one MQTT connection, message
callback writing into a shared condition dict, batched subscribe, publish)
and a `Coordinator` (owns the condition dict, login gate, synchronous
getters).  We embed this shallowly: the combined mutable state of the
client and the coordinator becomes one structure `SysState`, every method
becomes a pure function on that state, the network is an oracle
(`ConnectOutcome`) deciding whether the OS-level connect call raises, and
logging is an append-only list of strings in the state.

Payloads are modelled as their decoded UTF-8 text (a Lean `String`); the
value stored in the condition dict is then either the parsed integer or
the raw text, exactly as in `MqttClient.on_message`.
-/

namespace Vakio

/-- Values held in the Python condition dict: `None`, an `int`, or a `str`. -/
inductive Val where
  | VNone : Val
  | VInt : Int → Val
  | VStr : String → Val
deriving DecidableEq, Repr

/-- `TEMP_ENDPOINT` from vakio.py. -/
def TEMP_ENDPOINT : String := "temp"

/-- `HUD_ENDPOINT` from vakio.py. -/
def HUD_ENDPOINT : String := "hum"

/-- `CO2_ENDPOINT` from vakio.py. -/
def CO2_ENDPOINT : String := "co2"

/-- `ENDPOINTS` from vakio.py. -/
def ENDPOINTS : List String := [TEMP_ENDPOINT, HUD_ENDPOINT, CO2_ENDPOINT]

/-- Python dict read `m[k]`: `some v` when the key is present (value `v`),
`none` when the access would raise `KeyError`. -/
def dictGet (m : List (String × Val)) (k : String) : Option Val :=
  (m.find? (fun p => p.1 == k)).map Prod.snd

/-- Python dict assignment `m[k] = v`: overwrite in place if the key is
present, else append at the end (dict insertion order). -/
def dictSet : List (String × Val) → String → Val → List (String × Val)
  | [], k, v => [(k, v)]
  | p :: rest, k, v => if p.1 == k then (k, v) :: rest else p :: dictSet rest k v

/-- The key list of the condition dict, in insertion order. -/
def condKeys (m : List (String × Val)) : List String := m.map Prod.fst

/-- Whitespace accepted by Python `int()` around the digits (ASCII subset). -/
def isPySpace (c : Char) : Bool :=
  c == ' ' || c == Char.ofNat 9 || c == Char.ofNat 10 || c == Char.ofNat 13 ||
  c == Char.ofNat 11 || c == Char.ofNat 12

/-- Digit-run parser for Python `int()`, after the first digit: digits with
single underscores allowed only between digits. `acc` is the value so far. -/
def pyDigitsAux : Nat → List Char → Option Nat
  | acc, [] => some acc
  | acc, c :: cs =>
    if c.isDigit then pyDigitsAux (10 * acc + (c.toNat - 48)) cs
    else if c == '_' then
      match cs with
      | [] => none
      | c2 :: cs2 =>
        if c2.isDigit then pyDigitsAux (10 * acc + (c2.toNat - 48)) cs2 else none
    else none

/-- A nonempty digit run (with legal underscores) and its base-10 value. -/
def pyDigits : List Char → Option Nat
  | [] => none
  | c :: cs => if c.isDigit then pyDigitsAux (c.toNat - 48) cs else none

/-- Leading and trailing whitespace stripped, as Python `int()` does. -/
def pyStrip (s : String) : List Char :=
  ((s.data.dropWhile isPySpace).reverse.dropWhile isPySpace).reverse

/-- Model of Python `int(s)` on ASCII text: optional surrounding whitespace,
optional sign, then a nonempty run of decimal digits with single underscores
allowed between digits.  `none` models the `ValueError` branch.  (CPython
additionally accepts non-ASCII decimal digits; the model covers ASCII.) -/
def pyIntParse (s : String) : Option Int :=
  match pyStrip s with
  | [] => none
  | c :: cs =>
    if c == '+' then (pyDigits cs).map (fun n => (n : Int))
    else if c == '-' then (pyDigits cs).map (fun n => -(n : Int))
    else (pyDigits (c :: cs)).map (fun n => (n : Int))

/-- Python `str.split(s, "/")` on the character list: groups between the
'/' separators, kept even when empty (so the result is never empty). -/
def splitSlash : List Char → List (List Char)
  | [] => [[]]
  | c :: cs =>
    let r := splitSlash cs
    if c == '/' then [] :: r
    else
      match r with
      | [] => [[c]]
      | g :: gs => (c :: g) :: gs

/-- `str.split(topic, "/")[-1]`: the last '/'-separated segment. -/
def lastSeg (topic : String) : String :=
  String.mk (((splitSlash topic.data).getLast?).getD [])

/-- Connection config (`data` dict): host, port, topic, optional auth pair. -/
structure Config where
  host : String
  port : Nat
  topic : String
  auth : Option (String × String)
deriving DecidableEq, Repr

/-- Combined mutable state of `MqttClient` and `Coordinator`:
the condition dict, the login flag, the broker-side subscription set,
the list of published messages (topic, msg, qos, retain), the diagnostic
subscribe counter, the connected flag, the network-loop flag, and the log. -/
structure SysState where
  condition : List (String × Val)
  is_logged_in : Bool
  subscriptions : List String
  published : List (String × String × Nat × Bool)
  subscribes_count : Nat
  is_connected : Bool
  loop_running : Bool
  log : List String
deriving DecidableEq, Repr

/-- Outcome oracle for the OS-level `client.connect` call: either it
succeeds or it raises `OSError` with some message. -/
inductive ConnectOutcome where
  | ok : ConnectOutcome
  | osErr : String → ConnectOutcome
deriving DecidableEq, Repr

/-- The raw paho `connect` call: raises (`Except.error`) on an OS error. -/
def connectPrim (o : ConnectOutcome) : Except String Unit :=
  match o with
  | ConnectOutcome.ok => Except.ok ()
  | ConnectOutcome.osErr e => Except.error e

/-- The message `_LOGGER.error` formats when `connect` catches an OSError. -/
def connectErrMsg (e : String) : String :=
  "Failed to connect to MQTT server due to exception: " ++ e

/-- The value `on_message` stores: `int(value)` when that parses, else the
raw decoded text (the `except ValueError: pass` branch). -/
def decodeVal (payload : String) : Val :=
  match pyIntParse payload with
  | some n => Val.VInt n
  | none => Val.VStr payload

/-- `MqttClient.on_message`: take the last path segment of the topic as the
key, unsubscribe from the message topic, decode the payload (integer when
it parses, raw text otherwise), and write it into the condition dict. -/
def on_message (st : SysState) (topic payload : String) : SysState :=
  let key := lastSeg topic
  let st1 := { st with subscriptions := st.subscriptions.filter (fun t => !(t == topic)) }
  { st1 with condition := dictSet st1.condition key (decodeVal payload) }

/-- `MqttClient.on_connect`: sets the connected flag. -/
def on_connect (st : SysState) : SysState :=
  { st with is_connected := true }

/-- `MqttClient.connect`: try the OS-level connect; on success start the
network loop and return `true`; on `OSError` log and return `false`.
The `match` on `connectPrim` is the `try/except OSError` of the source. -/
def mqttConnect (st : SysState) (o : ConnectOutcome) : SysState × Bool :=
  match connectPrim o with
  | Except.ok _ => ({ st with loop_running := true }, true)
  | Except.error e => ({ st with log := st.log ++ [connectErrMsg e] }, false)

/-- `MqttClient.disconnect`: clear the connected flag, stop the loop,
close the connection. -/
def mqttDisconnect (st : SysState) : SysState :=
  { st with is_connected := false, loop_running := false }

/-- Add one topic to the broker-side subscription set (idempotent). -/
def subAdd (l : List String) (t : String) : List String :=
  if l.contains t then l else l ++ [t]

/-- Add a batch of topics to the subscription set. -/
def subAddAll (l : List String) (ts : List String) : List String :=
  ts.foldl subAdd l

/-- `MqttClient.subscribe`: bump the diagnostic counter and issue one
batched subscribe for `{topic}/{endpoint}` over all three endpoints. -/
def mqttSubscribe (cfg : Config) (st : SysState) : SysState :=
  { st with
    subscribes_count := st.subscribes_count + 1,
    subscriptions := subAddAll st.subscriptions
      (ENDPOINTS.map (fun e => cfg.topic ++ "/" ++ e)) }

/-- `MqttClient.publish`: compose the topic as `topic/endpoint`, prepend
`pfx/` when a prefix is given, publish with qos 0 and retain true, and
return `True`. -/
def mqttPublish (cfg : Config) (st : SysState) (endpoint msg : String)
    (pfx : Option String) : SysState × Bool :=
  let topic0 := cfg.topic ++ "/" ++ endpoint
  let topic := match pfx with
    | some p => p ++ "/" ++ topic0
    | none => topic0
  ({ st with published := st.published ++ [(topic, msg, 0, true)] }, true)

/-- `MqttClient.get_condition` (the refresh path): re-subscribe and return
the condition dict. -/
def get_condition (cfg : Config) (st : SysState) : SysState × List (String × Val) :=
  let st1 := mqttSubscribe cfg st
  (st1, st1.condition)

/-- `Coordinator.__init__`: condition dict with the three endpoints mapped
to `None`, not logged in, fresh client state. -/
def initState : SysState :=
  { condition := [(TEMP_ENDPOINT, Val.VNone), (HUD_ENDPOINT, Val.VNone), (CO2_ENDPOINT, Val.VNone)],
    is_logged_in := false,
    subscriptions := [],
    published := [],
    subscribes_count := 0,
    is_connected := false,
    loop_running := false,
    log := [] }

/-- `Coordinator.async_login`: return `True` at once when already logged
in; otherwise connect, subscribe (regardless of the connect status), log
"Auth error" when the connect failed, set the logged-in flag
unconditionally, and return the connect status. -/
def async_login (cfg : Config) (st : SysState) (o : ConnectOutcome) : SysState × Bool :=
  if st.is_logged_in then (st, true)
  else
    let cres := mqttConnect st o
    let st2 := mqttSubscribe cfg cres.1
    let st3 := if cres.2 then st2 else { st2 with log := st2.log ++ ["Auth error"] }
    ({ st3 with is_logged_in := true }, cres.2)

/-- `Coordinator.get_temp`: the body is a single `return`; the state is
returned unchanged together with the dict read. -/
def get_temp (st : SysState) : SysState × Option Val :=
  (st, dictGet st.condition TEMP_ENDPOINT)

/-- `Coordinator.get_hud`. -/
def get_hud (st : SysState) : SysState × Option Val :=
  (st, dictGet st.condition HUD_ENDPOINT)

/-- `Coordinator.get_co2`. -/
def get_co2 (st : SysState) : SysState × Option Val :=
  (st, dictGet st.condition CO2_ENDPOINT)

/-- States reachable from a fresh Coordinator by the modelled operations
(callbacks are fired by the broker runtime with arbitrary topic/payload). -/
inductive Reachable (cfg : Config) : SysState → Prop where
  | init : Reachable cfg initState
  | login : ∀ st o, Reachable cfg st → Reachable cfg (async_login cfg st o).1
  | msg : ∀ st topic payload, Reachable cfg st → Reachable cfg (on_message st topic payload)
  | conn : ∀ st o, Reachable cfg st → Reachable cfg (mqttConnect st o).1
  | connAck : ∀ st, Reachable cfg st → Reachable cfg (on_connect st)
  | sub : ∀ st, Reachable cfg st → Reachable cfg (mqttSubscribe cfg st)
  | pub : ∀ st ep m pfx, Reachable cfg st → Reachable cfg (mqttPublish cfg st ep m pfx).1
  | disc : ∀ st, Reachable cfg st → Reachable cfg (mqttDisconnect st)
  | refresh : ∀ st, Reachable cfg st → Reachable cfg (get_condition cfg st).1

/-- The concrete config of the spec scenario (§8). -/
def cfg0 : Config :=
  { host := "10.0.0.5", port := 1883, topic := "vakio", auth := none }

end Vakio

namespace Vakio

/-- Reading a cons cell of the dict. -/
theorem dictGet_cons (p : String × Val) (l : List (String × Val)) (k : String) :
    dictGet (p :: l) k = if p.1 == k then some p.2 else dictGet l k := by
  by_cases h : p.1 == k <;> simp [dictGet, List.find?, h]

/-- Writing a key makes it readable with the written value. -/
theorem dictGet_dictSet_self (m : List (String × Val)) (k : String) (v : Val) :
    dictGet (dictSet m k v) k = some v := by
  induction m with
  | nil => simp [dictSet, dictGet, List.find?]
  | cons p rest ih =>
    by_cases h : p.1 == k
    · simp [dictSet, h, dictGet_cons]
    · simp [dictSet, h, dictGet_cons, ih]

/-- Writing one key leaves every other key unchanged. -/
theorem dictGet_dictSet_ne (m : List (String × Val)) (k k' : String) (v : Val)
    (h : k' ≠ k) :
    dictGet (dictSet m k v) k' = dictGet m k' := by
  induction m with
  | nil =>
    have hk : (k == k') = false := by
      simp [beq_eq_false_iff_ne]
      exact fun he => h he.symm
    simp [dictSet, dictGet_cons, dictGet, hk]
  | cons p rest ih =>
    by_cases hp : p.1 == k
    · have hp1 : p.1 = k := by simpa [beq_iff_eq] using hp
      have hk : (k == k') = false := by
        simp [beq_eq_false_iff_ne]
        exact fun he => h he.symm
      simp [dictSet, hp, dictGet_cons, hp1, hk]
    · simp [dictSet, hp, dictGet_cons, ih]

/-- A key present before a write is present after it (no eviction). -/
theorem dictGet_dictSet_isSome (m : List (String × Val)) (k k' : String) (v : Val)
    (h : (dictGet m k').isSome = true) :
    (dictGet (dictSet m k v) k').isSome = true := by
  by_cases hk : k' = k
  · subst hk; simp [dictGet_dictSet_self]
  · rw [dictGet_dictSet_ne m k k' v hk]; exact h

/-- `mqttConnect` does not touch the condition dict. -/
theorem mqttConnect_condition (st : SysState) (o : ConnectOutcome) :
    (mqttConnect st o).1.condition = st.condition := by
  cases o <;> rfl

/-- `mqttPublish` does not touch the condition dict. -/
theorem mqttPublish_condition (cfg : Config) (st : SysState) (ep m : String)
    (pfx : Option String) :
    (mqttPublish cfg st ep m pfx).1.condition = st.condition := by
  cases pfx <;> rfl

/-- `async_login` does not touch the condition dict. -/
theorem async_login_condition (cfg : Config) (st : SysState) (o : ConnectOutcome) :
    (async_login cfg st o).1.condition = st.condition := by
  unfold async_login
  by_cases h : st.is_logged_in
  · simp [h]
  · cases o <;> simp [h, mqttConnect, connectPrim, mqttSubscribe]

end Vakio

namespace Vakio

/-- The values `on_message` can put in the cache: the initial `None`, a
parsed integer, or the raw text of a payload that does not parse. -/
def GoodVal (v : Val) : Prop :=
  v = Val.VNone ∨ (∃ n, v = Val.VInt n) ∨ (∃ p, pyIntParse p = none ∧ v = Val.VStr p)

/-- The decoded value of any payload is a `GoodVal`. -/
theorem goodVal_decodeVal (p : String) : GoodVal (decodeVal p) := by
  unfold decodeVal GoodVal
  cases h : pyIntParse p with
  | none => exact Or.inr (Or.inr ⟨p, h, rfl⟩)
  | some n => exact Or.inr (Or.inl ⟨n, rfl⟩)

/-- A dict of good values stays good under a good write. -/
theorem goodDict_set (m : List (String × Val)) (k : String) (v : Val)
    (hm : ∀ k0 v0, dictGet m k0 = some v0 → GoodVal v0) (hv : GoodVal v) :
    ∀ k0 v0, dictGet (dictSet m k v) k0 = some v0 → GoodVal v0 := by
  intro k0 v0 h0
  by_cases hk : k0 = k
  · subst hk
    rw [dictGet_dictSet_self] at h0
    cases h0
    exact hv
  · rw [dictGet_dictSet_ne m k k0 v hk] at h0
    exact hm k0 v0 h0

/-- Invariant of the condition dict: every stored value is a `GoodVal` and
the three metric keys are always present. -/
def CacheInv (st : SysState) : Prop :=
  (∀ k v, dictGet st.condition k = some v → GoodVal v) ∧
  (dictGet st.condition TEMP_ENDPOINT).isSome = true ∧
  (dictGet st.condition HUD_ENDPOINT).isSome = true ∧
  (dictGet st.condition CO2_ENDPOINT).isSome = true

/-- The fresh Coordinator state satisfies the cache invariant. -/
theorem cacheInv_init : CacheInv initState := by
  refine ⟨?_, rfl, rfl, rfl⟩
  intro k v h
  unfold dictGet at h
  cases hf : initState.condition.find? (fun p => p.1 == k) with
  | none => rw [hf] at h; simp at h
  | some pr =>
    rw [hf] at h
    simp at h
    have hmem := List.mem_of_find?_eq_some hf
    have hv : pr.2 = Val.VNone := by
      simp [initState] at hmem
      rcases hmem with h1 | h2 | h3
      · rw [h1]
      · rw [h2]
      · rw [h3]
    exact Or.inl (h ▸ hv)

/-- `on_message` preserves the cache invariant. -/
theorem cacheInv_on_message (st : SysState) (topic payload : String)
    (h : CacheInv st) : CacheInv (on_message st topic payload) := by
  obtain ⟨hg, ht, hh, hc⟩ := h
  have hcond : (on_message st topic payload).condition
      = dictSet st.condition (lastSeg topic) (decodeVal payload) := rfl
  refine ⟨?_, ?_, ?_, ?_⟩
  · rw [hcond]; exact goodDict_set _ _ _ hg (goodVal_decodeVal payload)
  · rw [hcond]; exact dictGet_dictSet_isSome _ _ _ _ ht
  · rw [hcond]; exact dictGet_dictSet_isSome _ _ _ _ hh
  · rw [hcond]; exact dictGet_dictSet_isSome _ _ _ _ hc

/-- Operations that leave the condition dict unchanged preserve the
cache invariant. -/
theorem cacheInv_frame (st st' : SysState) (hc : st'.condition = st.condition)
    (h : CacheInv st) : CacheInv st' := by
  unfold CacheInv at h ⊢
  rw [hc]
  exact h

/-- Every reachable state satisfies the cache invariant. -/
theorem reachable_cacheInv (cfg : Config) (st : SysState) (h : Reachable cfg st) :
    CacheInv st := by
  induction h with
  | init => exact cacheInv_init
  | login st o _ ih => exact cacheInv_frame _ _ (async_login_condition cfg st o) ih
  | msg st t p _ ih => exact cacheInv_on_message st t p ih
  | conn st o _ ih => exact cacheInv_frame _ _ (mqttConnect_condition st o) ih
  | connAck st _ ih => exact cacheInv_frame _ _ rfl ih
  | sub st _ ih => exact cacheInv_frame _ _ rfl ih
  | pub st ep m pfx _ ih => exact cacheInv_frame _ _ (mqttPublish_condition cfg st ep m pfx) ih
  | disc st _ ih => exact cacheInv_frame _ _ rfl ih
  | refresh st _ ih => exact cacheInv_frame _ _ rfl ih

end Vakio

namespace Vakio

/-- C1: when the broker connect raises `OSError`, `async_login` on a
not-yet-logged-in Coordinator returns the failed status `false`, still sets
`is_logged_in` to `true`, still invokes `subscribe` (the counter is bumped),
and both the connect error and the "Auth error" line are logged. -/
theorem C1_login_failure_still_logs_in (cfg : Config) (st : SysState) (e : String)
    (h : st.is_logged_in = false) :
    (async_login cfg st (ConnectOutcome.osErr e)).2 = false ∧
    (async_login cfg st (ConnectOutcome.osErr e)).1.is_logged_in = true ∧
    (async_login cfg st (ConnectOutcome.osErr e)).1.subscribes_count
      = st.subscribes_count + 1 ∧
    connectErrMsg e ∈ (async_login cfg st (ConnectOutcome.osErr e)).1.log ∧
    "Auth error" ∈ (async_login cfg st (ConnectOutcome.osErr e)).1.log := by
  simp [async_login, h, mqttConnect, connectPrim, mqttSubscribe]

/-- Witness for C1 at the fresh state and the scenario config. -/
theorem C1_witness :
    initState.is_logged_in = false ∧
    ((async_login cfg0 initState (ConnectOutcome.osErr "unreachable")).2 = false ∧
     (async_login cfg0 initState (ConnectOutcome.osErr "unreachable")).1.is_logged_in = true ∧
     (async_login cfg0 initState (ConnectOutcome.osErr "unreachable")).1.subscribes_count
       = initState.subscribes_count + 1 ∧
     connectErrMsg "unreachable"
       ∈ (async_login cfg0 initState (ConnectOutcome.osErr "unreachable")).1.log ∧
     "Auth error" ∈ (async_login cfg0 initState (ConnectOutcome.osErr "unreachable")).1.log) :=
  ⟨rfl, C1_login_failure_still_logs_in cfg0 initState "unreachable" rfl⟩

/-- C2: for every state, topic and decoded payload text, `on_message`
stores under the key derived from the topic the parsed integer when the
text parses as a base-10 integer, and the exact text otherwise; the
`ValueError` branch is absorbed (`on_message` is a total function). -/
theorem C2_on_message_stores_decoded (st : SysState) (topic payload : String) :
    dictGet (on_message st topic payload).condition (lastSeg topic) =
      some (match pyIntParse payload with
            | some n => Val.VInt n
            | none => Val.VStr payload) := by
  have h : dictGet (on_message st topic payload).condition (lastSeg topic)
      = some (decodeVal payload) := dictGet_dictSet_self _ _ _
  rw [h]
  unfold decodeVal
  rfl

/-- C3: `async_login` on an already-logged-in state returns `true` at once
and changes nothing, and any second `async_login` after a first one is such
a no-op, so the connect/subscribe sequence runs at most once. -/
theorem C3_login_idempotent (cfg : Config) (st : SysState) (o o2 : ConnectOutcome) :
    (st.is_logged_in = true → async_login cfg st o = (st, true)) ∧
    async_login cfg (async_login cfg st o).1 o2 = ((async_login cfg st o).1, true) := by
  have hstep : ∀ st' : SysState, st'.is_logged_in = true →
      async_login cfg st' o2 = (st', true) := by
    intro st' h
    simp [async_login, h]
  constructor
  · intro h
    simp [async_login, h]
  · apply hstep
    by_cases h : st.is_logged_in
    · simp [async_login, h]
    · cases o <;> simp [async_login, h, mqttConnect, connectPrim, mqttSubscribe]

/-- Witness for C3: after a successful first login, the logged-in flag is
set and a second login is the identity with result `true`. -/
theorem C3_witness :
    (async_login cfg0 initState ConnectOutcome.ok).1.is_logged_in = true ∧
    async_login cfg0 (async_login cfg0 initState ConnectOutcome.ok).1 ConnectOutcome.ok
      = ((async_login cfg0 initState ConnectOutcome.ok).1, true) :=
  ⟨by decide,
   (C3_login_idempotent cfg0 (async_login cfg0 initState ConnectOutcome.ok).1
      ConnectOutcome.ok ConnectOutcome.ok).1 (by decide)⟩

/-- C4: `on_message` unsubscribes from exactly the message topic (the
subscription set afterwards is the old one with all occurrences of that
topic removed and nothing else changed), does not issue any new subscribe,
and writes the decoded value under the last '/'-separated segment. -/
theorem C4_on_message_one_shot (st : SysState) (topic payload : String) :
    (on_message st topic payload).subscriptions
      = st.subscriptions.filter (fun t => !(t == topic)) ∧
    (on_message st topic payload).subscribes_count = st.subscribes_count ∧
    dictGet (on_message st topic payload).condition (lastSeg topic)
      = some (decodeVal payload) := by
  refine ⟨rfl, rfl, ?_⟩
  exact dictGet_dictSet_self _ _ _

end Vakio

namespace Vakio

/-- The claim predicate of C5 as stated: the getter result is an integer
value or unset (`None` stored, or the key absent); a cached raw string is
neither. -/
def claimOptInt : Option Val → Bool
  | some (Val.VStr _) => false
  | some (Val.VInt _) => true
  | some Val.VNone => true
  | none => true

/-- Counterexample to C5 as stated: the state reached from a fresh
Coordinator by one message on `vakio/co2` with the non-numeric payload
"high" is reachable, and there `get_co2` returns the cached string
"high", which is neither an integer nor unset. -/
theorem C5_counterexample :
    Reachable cfg0 (on_message initState "vakio/co2" "high") ∧
    (get_co2 (on_message initState "vakio/co2" "high")).2 = some (Val.VStr "high") ∧
    claimOptInt (get_co2 (on_message initState "vakio/co2" "high")).2 = false :=
  ⟨Reachable.msg initState "vakio/co2" "high" Reachable.init, by decide, by decide⟩

/-- C5 (amended): in every reachable state each getter returns a present
cache entry that is either unset (`None`), an integer, or the raw text of
a payload that does not parse as an integer. -/
theorem C5_getters_return_cached_value (cfg : Config) (st : SysState)
    (h : Reachable cfg st) :
    (∃ v, (get_temp st).2 = some v ∧ GoodVal v) ∧
    (∃ v, (get_hud st).2 = some v ∧ GoodVal v) ∧
    (∃ v, (get_co2 st).2 = some v ∧ GoodVal v) := by
  obtain ⟨hg, ht, hh, hc⟩ := reachable_cacheInv cfg st h
  refine ⟨?_, ?_, ?_⟩
  · cases hv : dictGet st.condition TEMP_ENDPOINT with
    | none => rw [hv] at ht; simp at ht
    | some v => exact ⟨v, by simp [get_temp, hv], hg _ _ hv⟩
  · cases hv : dictGet st.condition HUD_ENDPOINT with
    | none => rw [hv] at hh; simp at hh
    | some v => exact ⟨v, by simp [get_hud, hv], hg _ _ hv⟩
  · cases hv : dictGet st.condition CO2_ENDPOINT with
    | none => rw [hv] at hc; simp at hc
    | some v => exact ⟨v, by simp [get_co2, hv], hg _ _ hv⟩

/-- Witness for the amended C5 at the fresh state. -/
theorem C5_witness :
    (∃ v, (get_temp initState).2 = some v ∧ GoodVal v) ∧
    (∃ v, (get_hud initState).2 = some v ∧ GoodVal v) ∧
    (∃ v, (get_co2 initState).2 = some v ∧ GoodVal v) :=
  C5_getters_return_cached_value cfg0 initState Reachable.init

/-- C6: `publish` composes the topic as the optional prefix, the
configured topic and the endpoint joined by "/", records the message with
qos 0 and retain set, and returns `true` for every payload. -/
theorem C6_publish_composes_topic (cfg : Config) (st : SysState)
    (ep m : String) (pfx : Option String) :
    (mqttPublish cfg st ep m pfx).2 = true ∧
    (mqttPublish cfg st ep m pfx).1.published
      = st.published ++ [((match pfx with
          | some p => p ++ "/" ++ (cfg.topic ++ "/" ++ ep)
          | none => cfg.topic ++ "/" ++ ep), m, 0, true)] := by
  cases pfx <;> exact ⟨rfl, rfl⟩

/-- C7: the raw connect call raises an error on an OS failure, but
`MqttClient.connect` catches it and returns the boolean `false`, and
`async_login` on a not-logged-in Coordinator forwards that boolean; all
modelled Coordinator operations are total Lean functions (no `Except` in
their result type), so no exception crosses the Coordinator boundary. -/
theorem C7_failures_become_booleans (cfg : Config) (st : SysState) (e : String)
    (h : st.is_logged_in = false) :
    connectPrim (ConnectOutcome.osErr e) = Except.error e ∧
    (mqttConnect st (ConnectOutcome.osErr e)).2 = false ∧
    connectErrMsg e ∈ (mqttConnect st (ConnectOutcome.osErr e)).1.log ∧
    (async_login cfg st (ConnectOutcome.osErr e)).2 = false := by
  refine ⟨rfl, rfl, ?_, ?_⟩
  · simp [mqttConnect, connectPrim]
  · simp [async_login, h, mqttConnect, connectPrim]

/-- Witness for C7 at the fresh state. -/
theorem C7_witness :
    initState.is_logged_in = false ∧
    (connectPrim (ConnectOutcome.osErr "down") = Except.error "down" ∧
     (mqttConnect initState (ConnectOutcome.osErr "down")).2 = false ∧
     connectErrMsg "down" ∈ (mqttConnect initState (ConnectOutcome.osErr "down")).1.log ∧
     (async_login cfg0 initState (ConnectOutcome.osErr "down")).2 = false) :=
  ⟨rfl, C7_failures_become_booleans cfg0 initState "down" rfl⟩

/-- C8: the getters return the state unchanged (their Python bodies are a
single `return`), their value is exactly the cache read, and they touch no
network structure (subscriptions, published list, counters, flags are those
of the input state because the whole state is). -/
theorem C8_getters_pure (st : SysState) :
    (get_temp st).1 = st ∧ (get_hud st).1 = st ∧ (get_co2 st).1 = st ∧
    (get_temp st).2 = dictGet st.condition TEMP_ENDPOINT ∧
    (get_hud st).2 = dictGet st.condition HUD_ENDPOINT ∧
    (get_co2 st).2 = dictGet st.condition CO2_ENDPOINT :=
  ⟨rfl, rfl, rfl, rfl, rfl, rfl⟩

end Vakio

namespace Vakio

/-- C9: the cache starts with exactly the three metrics mapped to unset;
connect, disconnect, subscribe, publish, login, the refresh path and the
getters all leave the condition dict untouched; and `on_message`, the one
writer, never evicts a present key. -/
theorem C9_cache_single_writer (cfg : Config) (st : SysState) (o : ConnectOutcome)
    (ep m tp p k : String) (pfx : Option String)
    (h : (dictGet st.condition k).isSome = true) :
    initState.condition
      = [(TEMP_ENDPOINT, Val.VNone), (HUD_ENDPOINT, Val.VNone), (CO2_ENDPOINT, Val.VNone)] ∧
    (mqttConnect st o).1.condition = st.condition ∧
    (mqttDisconnect st).condition = st.condition ∧
    (mqttSubscribe cfg st).condition = st.condition ∧
    (mqttPublish cfg st ep m pfx).1.condition = st.condition ∧
    (async_login cfg st o).1.condition = st.condition ∧
    (get_condition cfg st).1.condition = st.condition ∧
    (get_temp st).1.condition = st.condition ∧
    (get_hud st).1.condition = st.condition ∧
    (get_co2 st).1.condition = st.condition ∧
    (dictGet (on_message st tp p).condition k).isSome = true :=
  ⟨rfl, mqttConnect_condition st o, rfl, rfl, mqttPublish_condition cfg st ep m pfx,
   async_login_condition cfg st o, rfl, rfl, rfl, rfl,
   dictGet_dictSet_isSome _ _ _ _ h⟩

/-- Witness for C9 at the fresh state with the key "temp". -/
theorem C9_witness :
    (dictGet initState.condition "temp").isSome = true ∧
    (dictGet (on_message initState "vakio/hum" "44").condition "temp").isSome = true :=
  ⟨by decide,
   (C9_cache_single_writer cfg0 initState ConnectOutcome.ok "e" "m" "vakio/hum" "44"
      "temp" none (by decide)).2.2.2.2.2.2.2.2.2.2⟩

/-- C10: `on_message` always creates or overwrites an entry under the last
'/'-separated segment of the topic, whatever that string is; concretely, a
message on "vakio/foo" grows the key list of the fresh cache from the three
metrics to four keys ending in "foo", a key outside the endpoint list. -/
theorem C10_cache_keys_not_fixed :
    (∀ st topic p,
      (dictGet (on_message st topic p).condition (lastSeg topic)).isSome = true) ∧
    condKeys initState.condition = ["temp", "hum", "co2"] ∧
    lastSeg "vakio/foo" = "foo" ∧
    condKeys (on_message initState "vakio/foo" "21").condition
      = ["temp", "hum", "co2", "foo"] ∧
    ENDPOINTS.contains "foo" = false := by
  refine ⟨?_, by decide, by decide, by decide, by decide⟩
  intro st topic p
  simp [on_message, dictGet_dictSet_self]

end Vakio
